import Mathlib

/-!
Verification development for the intercity delivery system
(`config.py`, `data_loader.py`, `optimizer.py`, `main.py`).

The Python modules are shallowly embedded below:
floating-point quantities become real numbers, Python ints become `ℕ`/`ℤ`,
Python lists become `List`, dicts become association lists or functions,
and the string flow markers `"+"` / `"-"` become the inductive type `Flow`.
Each definition carries a comment pointing at the source lines it embeds.
-/

namespace Intercity

/-- Flow direction; the source (`optimizer.py` line 19, `data_loader.py`
`OrderBatch.flow`) uses the strings `"+"` (city 1 to city 2) and `"-"`
(city 2 to city 1). -/
inductive Flow
  | pos
  | neg
deriving DecidableEq, Repr

/-- `data_loader.py` lines 184-191, dataclass `OrderBatch`.
`flow` is the direction marker, `quantity` the demand `d_l`,
`earliest_start` is `s_l`, `latest_completion` is `e_l`,
`penalty_lost` is `delta_l` (a float, embedded as a real). -/
structure OrderBatch where
  batch_id : ℕ
  flow : Flow
  quantity : ℤ
  earliest_start : ℕ
  latest_completion : ℕ
  penalty_lost : ℝ

/-- `config.py` lines 5-39, dataclass `DeliveryConfig`.  The two dicts
`N_manual` and `N_auto` (keys 1 and 2) are embedded as functions; float
fields are embedded as reals. -/
structure DeliveryConfig where
  T : ℕ
  t_0 : ℝ
  travel_time_periods : ℕ
  N_manual : ℕ → ℤ
  N_auto : ℕ → ℤ
  capacity_manual : ℝ
  capacity_auto : ℝ
  cost_manual : ℝ
  cost_auto : ℝ
  penalty_lost : ℝ
  service_a_1 : ℝ
  service_b_1 : ℝ
  service_a_2 : ℝ
  service_b_2 : ℝ

/-- `data_loader.py` lines 41-47, `DataLoader.BHH_function_1` and
`BHH_function_2`: the BHH throughput approximation
`T(load) = a * load + b * sqrt(load)`, with the city parameters `a`, `b`
passed explicitly (the source reads them from `self.cfg`). -/
noncomputable def BHH_function (a b load : ℝ) : ℝ :=
  a * load + b * Real.sqrt load

/-- `data_loader.py` lines 50-83, `DataLoader.inverse_function_1` and
`inverse_function_2` (identical up to which city parameters are read):
`delta = b^2 + 4*a*T_val`, `u = (-b + sqrt(delta)) / (2*a)`, result `u^2`. -/
noncomputable def inverse_function (a b T_val : ℝ) : ℝ :=
  let delta := b ^ 2 + 4 * a * T_val
  let u := (-b + Real.sqrt delta) / (2 * a)
  u ^ 2

/-- Python exception kinds that the embedded code can raise:
`math.sqrt` of a negative float raises `ValueError`; reading an attribute
that no method has set yet raises `AttributeError`; indexing an empty
list raises `IndexError`; unpacking an `int` into a pair raises
`TypeError`; and handing gurobipy's `quicksum`/`addConstr` comparison
objects where expressions are expected raises a gurobipy-level error
(grouped here as `gurobiError`; its precise class is outside the scope of
this embedding and no theorem below depends on that branch). -/
inductive PyExc
  | valueError
  | attributeError
  | indexError
  | typeError
  | gurobiError
deriving DecidableEq, Repr

/-- Python `math.sqrt`: raises `ValueError` on a negative argument,
otherwise returns the non-negative square root. -/
noncomputable def mathSqrt (x : ℝ) : Except PyExc ℝ :=
  if x < 0 then .error .valueError else .ok (Real.sqrt x)

/-- `data_loader.py` lines 50-65 with the raising behaviour of
`math.sqrt` made explicit: the only way `inverse_function_1`/`_2` can
fail is `math.sqrt(delta)` with `delta < 0`; the function performs no
other input validation. -/
noncomputable def inverse_function_checked (a b T_val : ℝ) : Except PyExc ℝ :=
  let delta := b ^ 2 + 4 * a * T_val
  (mathSqrt delta).map fun s => ((-b + s) / (2 * a)) ^ 2

/-- Turns an `Except` into a success flag (Python: the call returned
instead of raising). -/
def exceptOk {ε α : Type} : Except ε α → Bool
  | .ok _ => true
  | .error _ => false

/-- `data_loader.py` lines 85-89, `DataLoader._generate_single_city_arcs`:
for `i in range(T)`, `limit = i + int(service_func(capacity_manual))`,
yield `(i, j)` for `j in range(i + 1, limit)`.  The per-city constant
`int(service_func(self.cfg.capacity_manual))` is the parameter `bound`. -/
def generate_single_city_arcs (T bound : ℕ) : List (ℕ × ℕ) :=
  (List.range T).flatMap fun i =>
    (List.range' (i + 1) (bound - 1)).map fun j => (i, j)

/-- `data_loader.py` lines 97-104, `DataLoader.generate_arcs_auto`:
`tau = travel_time_periods`; for `i in range(T - tau + 1)` append
`(i, i + tau)`.  Python's `range` of a non-positive integer is empty,
which coincides with truncated subtraction `T + 1 - tau` on `ℕ`. -/
def generate_arcs_auto (T tau : ℕ) : List (ℕ × ℕ) :=
  (List.range (T + 1 - tau)).map fun i => (i, i + tau)

/-- C4 (amended): for every horizon `T` and per-city bound, the manual arc
generator produces exactly the arcs `(i, j)` with `i < T` and
`i < j < i + bound`; there is no clipping of the arrival period at the
horizon `T`, and when `bound ≤ 1` (the degenerate `limit ≤ i + 1` case) no
arcs originate anywhere and nothing fails. -/
theorem generate_single_city_arcs_mem (T bound i j : ℕ) :
    (i, j) ∈ generate_single_city_arcs T bound ↔
      i < T ∧ i < j ∧ j < i + bound := by
  simp only [generate_single_city_arcs, List.mem_flatMap, List.mem_map,
    List.mem_range, List.mem_range'_1, Prod.mk.injEq]
  constructor
  · rintro ⟨i', hi', j', ⟨h1, h2⟩, rfl, rfl⟩
    omega
  · rintro ⟨hiT, hij, hjb⟩
    exact ⟨i, hiT, j, by omega, rfl, rfl⟩

/-- C4, counterexample to the claim as stated: with horizon `T = 3` and
rate-derived bound `5` the generator emits the arc `(2, 6)` whose arrival
period `6` exceeds the horizon, so the output is not intersected with
`j ≤ T`. -/
theorem generate_single_city_arcs_not_clipped :
    (2, 6) ∈ generate_single_city_arcs 3 5 ∧ ¬(6 ≤ 3) := by decide

/-- C5 (amended): the autonomous arc generator returns exactly the arcs
`(i, i + tau)` for `i` with `i + tau ≤ T`; consequently the result is
empty iff `tau > T` — at `tau = T` it still contains the single arc
`(0, T)` — and no input raises an error. -/
theorem generate_arcs_auto_mem (T tau i j : ℕ) :
    (i, j) ∈ generate_arcs_auto T tau ↔ i + tau ≤ T ∧ j = i + tau := by
  simp only [generate_arcs_auto, List.mem_map, List.mem_range, Prod.mk.injEq]
  constructor
  · rintro ⟨i', hi', rfl, rfl⟩
    omega
  · rintro ⟨hle, rfl⟩
    exact ⟨i, by omega, rfl, rfl⟩

/-- C5, counterexample to the claim as stated: at `tau = T = 3` (so
`tau ≥ T`) the autonomous arc set is `[(0, 3)]`, not empty. -/
theorem generate_arcs_auto_tau_eq_T_nonempty :
    3 ≤ 3 ∧ generate_arcs_auto 3 3 = [(0, 3)] := by decide

/-- C3: round trip of the service rate model.  For a city with `a > 0`,
`b ≥ 0` and any load `lam ≥ 0`, applying `inverse_function` to
`BHH_function a b lam` recovers `lam` exactly (the embedding works over
the reals, so the "numeric tolerance" of the claim is exact equality). -/
theorem inverse_BHH_roundtrip (a b lam : ℝ)
    (ha : 0 < a) (hb : 0 ≤ b) (hl : 0 ≤ lam) :
    inverse_function a b (BHH_function a b lam) = lam := by
  have hs : Real.sqrt lam ^ 2 = lam := Real.sq_sqrt hl
  have hsn : 0 ≤ Real.sqrt lam := Real.sqrt_nonneg lam
  have hdelta : b ^ 2 + 4 * a * BHH_function a b lam
      = (b + 2 * a * Real.sqrt lam) ^ 2 := by
    simp only [BHH_function]
    linear_combination (-4 * a ^ 2) * hs
  have hpos : 0 ≤ b + 2 * a * Real.sqrt lam := by positivity
  have hroot : Real.sqrt (b ^ 2 + 4 * a * BHH_function a b lam)
      = b + 2 * a * Real.sqrt lam := by
    rw [hdelta, Real.sqrt_sq hpos]
  simp only [inverse_function]
  rw [hroot,
    show -b + (b + 2 * a * Real.sqrt lam) = 2 * a * Real.sqrt lam from by ring,
    mul_div_cancel_left₀ _ (by positivity : (2 : ℝ) * a ≠ 0), hs]

/-- C3 witness at the concrete city parameters `a = 1`, `b = 1` and load
`lam = 4`. -/
theorem inverse_BHH_roundtrip_witness :
    inverse_function 1 1 (BHH_function 1 1 4) = 4 :=
  inverse_BHH_roundtrip 1 1 4 (by norm_num) (by norm_num) (by norm_num)

/-- C10: for `a > 0`, `b ≥ 0` and `T_val ≥ 0` the inverse computation is
safe even without defensive checks: the discriminant is non-negative, the
divisor `2 * a` is non-zero, the result `u ^ 2` is non-negative, and the
checked variant (with `math.sqrt`'s raising behaviour explicit) returns
normally with the same value. -/
theorem inverse_function_safe (a b T_val : ℝ)
    (ha : 0 < a) (hb : 0 ≤ b) (hT : 0 ≤ T_val) :
    0 ≤ b ^ 2 + 4 * a * T_val ∧ 2 * a ≠ 0 ∧
      0 ≤ inverse_function a b T_val ∧
      inverse_function_checked a b T_val
        = Except.ok (inverse_function a b T_val) := by
  have hd : 0 ≤ b ^ 2 + 4 * a * T_val := by positivity
  refine ⟨hd, by positivity, ?_, ?_⟩
  · exact sq_nonneg _
  · simp only [inverse_function_checked, inverse_function, mathSqrt,
      not_lt.mpr hd, if_false, Except.map]

/-- C10 witness at `a = 1`, `b = 1`, `T_val = 2`. -/
theorem inverse_function_safe_witness :
    0 ≤ (1 : ℝ) ^ 2 + 4 * 1 * 2 ∧ (2 : ℝ) * 1 ≠ 0 ∧
      0 ≤ inverse_function 1 1 2 ∧
      inverse_function_checked 1 1 2 = Except.ok (inverse_function 1 1 2) :=
  inverse_function_safe 1 1 2 (by norm_num) (by norm_num) (by norm_num)

/-- C8 (amended): the source inverse performs no input validation at all.
It fails — with Python's `ValueError` from `math.sqrt`, not with an
`InvalidInput`/`NumericalError` taxonomy — exactly when the discriminant
`b^2 + 4*a*T_val` is negative; any input with a non-negative discriminant,
including negative durations, returns normally. -/
theorem inverse_function_checked_error_iff (a b T_val : ℝ) :
    inverse_function_checked a b T_val = Except.error PyExc.valueError ↔
      b ^ 2 + 4 * a * T_val < 0 := by
  by_cases h : b ^ 2 + 4 * a * T_val < 0
  · simp [inverse_function_checked, mathSqrt, h, Except.map]
  · simp [inverse_function_checked, mathSqrt, h, Except.map]

/-- C8, counterexample to the claim as stated: with the repository's city
parameters `a = 0.05`, `b = 0.1` and the negative duration `-0.01`, the
discriminant is `0.008 ≥ 0`, so the inverse returns normally instead of
failing with `InvalidInput`. -/
theorem inverse_function_negative_duration_returns :
    (-1 / 100 : ℝ) < 0 ∧
      exceptOk (inverse_function_checked (5 / 100) (1 / 10) (-1 / 100))
        = true := by
  refine ⟨by norm_num, ?_⟩
  rw [inverse_function_checked, mathSqrt]
  norm_num [Except.map, exceptOk]

/-- `data_loader.py` lines 166-182, `DataLoader.pre_inverse_count` for one
city: for each arc `(i, j)` the duration is `(j - i) * t_0` and the stored
capacity coefficient is `inverse_function` of that duration.  The source
builds a dict keyed by the arc; the embedding keeps the (key, value) pairs
as a list in generation order. -/
noncomputable def pre_inverse_count (a b t0 : ℝ) (arcs : List (ℕ × ℕ)) :
    List ((ℕ × ℕ) × ℝ) :=
  arcs.map fun p => (p, inverse_function a b ((p.2 - p.1 : ℕ) * t0))

/-- Monotonicity of the quadratic-root inverse on non-negative durations:
helper for the capacity-coefficient table. -/
theorem inverse_function_mono (a b d1 d2 : ℝ)
    (ha : 0 < a) (hb : 0 ≤ b) (h1 : 0 ≤ d1) (h12 : d1 ≤ d2) :
    inverse_function a b d1 ≤ inverse_function a b d2 := by
  simp only [inverse_function]
  have hs : Real.sqrt (b ^ 2 + 4 * a * d1) ≤ Real.sqrt (b ^ 2 + 4 * a * d2) :=
    Real.sqrt_le_sqrt (by nlinarith)
  have hbs : b ≤ Real.sqrt (b ^ 2 + 4 * a * d1) := by
    have := Real.sqrt_le_sqrt (show b ^ 2 ≤ b ^ 2 + 4 * a * d1 by nlinarith)
    rwa [Real.sqrt_sq hb] at this
  have hu1 : 0 ≤ (-b + Real.sqrt (b ^ 2 + 4 * a * d1)) / (2 * a) := by
    apply div_nonneg (by linarith) (by positivity)
  have hu12 : (-b + Real.sqrt (b ^ 2 + 4 * a * d1)) / (2 * a)
      ≤ (-b + Real.sqrt (b ^ 2 + 4 * a * d2)) / (2 * a) :=
    (div_le_div_right (by positivity)).mpr (by linarith)
  exact pow_le_pow_left₀ hu1 hu12 2

/-- C7: for one city with service parameters `a > 0`, `b ≥ 0` and period
duration `t0 ≥ 0`, the capacity-coefficient table built by
`pre_inverse_count` is non-decreasing in arc duration `j - i`, and every
coefficient is a non-negative real. -/
theorem pre_inverse_count_monotone (a b t0 : ℝ) (arcs : List (ℕ × ℕ))
    (ha : 0 < a) (hb : 0 ≤ b) (ht : 0 ≤ t0)
    (p q : (ℕ × ℕ) × ℝ)
    (hp : p ∈ pre_inverse_count a b t0 arcs)
    (hq : q ∈ pre_inverse_count a b t0 arcs)
    (hd : p.1.2 - p.1.1 ≤ q.1.2 - q.1.1) :
    0 ≤ p.2 ∧ p.2 ≤ q.2 := by
  simp only [pre_inverse_count, List.mem_map] at hp hq
  obtain ⟨u, hu, rfl⟩ := hp
  obtain ⟨v, hv, rfl⟩ := hq
  constructor
  · exact sq_nonneg _
  · apply inverse_function_mono a b _ _ ha hb
    · positivity
    · have : ((u.2 - u.1 : ℕ) : ℝ) ≤ ((v.2 - v.1 : ℕ) : ℝ) := by
        exact_mod_cast hd
      exact mul_le_mul_of_nonneg_right this ht

/-- C7 witness: city parameters `a = 1`, `b = 1`, period duration `1`,
arcs `(0, 1)` and `(0, 2)` of durations `1 ≤ 2`. -/
theorem pre_inverse_count_monotone_witness :
    0 ≤ inverse_function 1 1 ((((1 : ℕ) - 0 : ℕ) : ℝ) * 1) ∧
      inverse_function 1 1 ((((1 : ℕ) - 0 : ℕ) : ℝ) * 1)
        ≤ inverse_function 1 1 ((((2 : ℕ) - 0 : ℕ) : ℝ) * 1) :=
  pre_inverse_count_monotone 1 1 1 [(0, 1), (0, 2)]
    (by norm_num) (by norm_num) (by norm_num)
    ((0, 1), inverse_function 1 1 ((((1 : ℕ) - 0 : ℕ) : ℝ) * 1))
    ((0, 2), inverse_function 1 1 ((((2 : ℕ) - 0 : ℕ) : ℝ) * 1))
    (by simp [pre_inverse_count]) (by simp [pre_inverse_count]) (by norm_num)

/-- `data_loader.py` line 108 (also 114, 120): the dict comprehension
initialising one active-arc index, an entry with an empty list for every
period `t in range(T)`.  Dicts are embedded as association lists in key
insertion order. -/
def emptySets (T : ℕ) : List (ℕ × List (ℕ × ℕ)) :=
  (List.range T).map fun t => (t, [])

/-- Appending an arc to the entry of period `t` in an association-list
dict (the effect of `sets[t].append((i, j))`). -/
def appendAt (m : List (ℕ × List (ℕ × ℕ))) (t : ℕ) (arc : ℕ × ℕ) :
    List (ℕ × List (ℕ × ℕ)) :=
  m.map fun e => if e.1 = t then (e.1, e.2 ++ [arc]) else e

/-- `data_loader.py` lines 109-112 (also 115-118, 121-124): the inner loop
of `DataLoader.generate_sets` for one arc `(i, j)`: for `t in range(i, j)`,
if `t < T`, append the arc to the entry of period `t`. -/
def addArcToSets (T : ℕ) (m : List (ℕ × List (ℕ × ℕ))) (arc : ℕ × ℕ) :
    List (ℕ × List (ℕ × ℕ)) :=
  (List.range' arc.1 (arc.2 - arc.1)).foldl
    (fun m t => if t < T then appendAt m t arc else m) m

/-- `data_loader.py` lines 106-126, `DataLoader.generate_sets` for one arc
collection (the source repeats the identical loop for `arcs_manual_1`,
`arcs_manual_2` and `arcs_auto`). -/
def generate_sets (T : ℕ) (arcs : List (ℕ × ℕ)) :
    List (ℕ × List (ℕ × ℕ)) :=
  arcs.foldl (addArcToSets T) (emptySets T)

/-- Association-list lookup hits a matching head. -/
theorem lookup_cons_self (k : ℕ) (v : List (ℕ × ℕ))
    (rest : List (ℕ × List (ℕ × ℕ))) :
    List.lookup k ((k, v) :: rest) = some v := by
  simp [List.lookup_cons]

/-- Association-list lookup skips a non-matching head. -/
theorem lookup_cons_ne (t k : ℕ) (v : List (ℕ × ℕ))
    (rest : List (ℕ × List (ℕ × ℕ))) (h : t ≠ k) :
    List.lookup t ((k, v) :: rest) = List.lookup t rest := by
  rw [List.lookup_cons, beq_eq_false_iff_ne.mpr h]

/-- Lookup after appending at one key: the entry of `t` gains the arc
exactly when `t` is the updated key; all other entries are untouched. -/
theorem lookup_appendAt (m : List (ℕ × List (ℕ × ℕ))) (t t' : ℕ)
    (arc : ℕ × ℕ) :
    List.lookup t (appendAt m t' arc)
      = if t = t' then (List.lookup t m).map (fun l => l ++ [arc])
        else List.lookup t m := by
  induction m with
  | nil => by_cases h : t = t' <;> simp [appendAt, h]
  | cons e m ih =>
    obtain ⟨k, v⟩ := e
    have tail : appendAt ((k, v) :: m) t' arc
        = (if k = t' then (k, v ++ [arc]) else (k, v)) :: appendAt m t' arc := rfl
    rw [tail]
    by_cases h1 : k = t'
    · subst h1
      rw [if_pos rfl]
      by_cases h2 : t = k
      · subst h2
        rw [lookup_cons_self, lookup_cons_self, if_pos rfl]
        rfl
      · rw [lookup_cons_ne _ _ _ _ h2, lookup_cons_ne _ _ _ _ h2, ih]
    · rw [if_neg h1]
      by_cases h2 : t = k
      · subst h2
        rw [lookup_cons_self, lookup_cons_self, if_neg h1]
      · rw [lookup_cons_ne _ _ _ _ h2, lookup_cons_ne _ _ _ _ h2, ih]

/-- Lookup after the inner `for t in range(i, j)` loop of one arc. -/
theorem lookup_foldl_range (T : ℕ) (arc : ℕ × ℕ) (t s n : ℕ) :
    ∀ m : List (ℕ × List (ℕ × ℕ)),
      List.lookup t ((List.range' s n).foldl
          (fun m u => if u < T then appendAt m u arc else m) m)
        = if s ≤ t ∧ t < s + n ∧ t < T
          then (List.lookup t m).map (fun l => l ++ [arc])
          else List.lookup t m := by
  induction n generalizing s with
  | zero =>
    intro m
    rw [show List.range' s 0 = [] from rfl, List.foldl_nil, if_neg (by omega)]
  | succ n ih =>
    intro m
    rw [List.range'_succ, List.foldl_cons, ih]
    by_cases hsT : s < T
    · rw [if_pos hsT, lookup_appendAt]
      by_cases hts : t = s
      · subst hts
        rw [if_pos rfl, if_neg (by omega), if_pos (by omega)]
      · rw [if_neg hts]
        split_ifs with h1 h2 h2 <;> first | rfl | omega
    · rw [if_neg hsT]
      split_ifs with h1 h2 h2 <;> first | rfl | omega

/-- Lookup after processing one whole arc: the entry of `t` gains the arc
exactly when `arc.1 ≤ t < arc.2` and `t < T`. -/
theorem lookup_addArcToSets (T : ℕ) (m : List (ℕ × List (ℕ × ℕ)))
    (arc : ℕ × ℕ) (t : ℕ) :
    List.lookup t (addArcToSets T m arc)
      = if arc.1 ≤ t ∧ t < arc.2 ∧ t < T
        then (List.lookup t m).map (fun l => l ++ [arc])
        else List.lookup t m := by
  rw [addArcToSets, lookup_foldl_range]
  by_cases h : arc.1 ≤ t ∧ t < arc.2 ∧ t < T
  · have hA : arc.1 ≤ t ∧ t < arc.1 + (arc.2 - arc.1) ∧ t < T := by omega
    rw [if_pos hA, if_pos h]
  · have hA : ¬(arc.1 ≤ t ∧ t < arc.1 + (arc.2 - arc.1) ∧ t < T) := by omega
    rw [if_neg hA, if_neg h]

/-- Lookup after folding a whole arc collection into an index: each entry
is extended by exactly the arcs spanning its period, in input order. -/
theorem lookup_generate_sets_aux (T t : ℕ) (arcs : List (ℕ × ℕ)) :
    ∀ m : List (ℕ × List (ℕ × ℕ)),
      List.lookup t (arcs.foldl (addArcToSets T) m)
        = (List.lookup t m).map (fun l =>
            l ++ arcs.filter fun arc => decide (arc.1 ≤ t ∧ t < arc.2 ∧ t < T)) := by
  induction arcs with
  | nil =>
    intro m
    cases h : List.lookup t m <;> simp [h]
  | cons a as ih =>
    intro m
    rw [List.foldl_cons, ih, lookup_addArcToSets]
    by_cases h : a.1 ≤ t ∧ t < a.2 ∧ t < T
    · rw [if_pos h]
      cases hm : List.lookup t m <;> simp [hm, List.filter_cons, h]
    · rw [if_neg h]
      cases hm : List.lookup t m <;> simp [hm, List.filter_cons, h]

/-- Lookup in the freshly initialised index: an (empty) entry exists
precisely for the keys of the comprehension. -/
theorem lookup_empty_range (t : ℕ) (s n : ℕ) :
    List.lookup t ((List.range' s n).map fun k => (k, ([] : List (ℕ × ℕ))))
      = if s ≤ t ∧ t < s + n then some [] else none := by
  induction n generalizing s with
  | zero =>
    rw [if_neg (by omega)]
    simp
  | succ n ih =>
    rw [List.range'_succ, List.map_cons]
    by_cases h : t = s
    · subst h
      simp [List.lookup_cons, if_pos (show t ≤ t ∧ t < t + (n + 1) by omega)]
    · have hb : (t == s) = false := by simp [h]
      simp only [List.lookup_cons, hb, ih]
      split_ifs with h1 h2 h2 <;> first | rfl | omega

/-- C6: for every arc collection and horizon `T`, the built index has an
entry (possibly empty) for every period `t < T`, and an arc `(i, j)`
appears in the entry of period `t` exactly when `i ≤ t < j` (membership of
a period `t ≥ T` is clipped: no such entry exists at all). -/
theorem generate_sets_entry (T t : ℕ) (arcs : List (ℕ × ℕ)) (h : t < T) :
    ∃ l, List.lookup t (generate_sets T arcs) = some l ∧
      ∀ arc : ℕ × ℕ, arc ∈ l ↔ arc ∈ arcs ∧ arc.1 ≤ t ∧ t < arc.2 := by
  refine ⟨arcs.filter fun arc => decide (arc.1 ≤ t ∧ t < arc.2 ∧ t < T), ?_, ?_⟩
  · rw [generate_sets, lookup_generate_sets_aux, emptySets,
      List.range_eq_range', lookup_empty_range, if_pos (by omega)]
    simp
  · intro arc
    simp only [List.mem_filter, decide_eq_true_eq]
    constructor
    · rintro ⟨h1, h2⟩
      exact ⟨h1, h2.1, h2.2.1⟩
    · rintro ⟨h1, h2, h3⟩
      exact ⟨h1, h2, h3, h⟩

/-- C6 witness: horizon `T = 2`, period `t = 0`, arcs `(0,2)` and `(1,3)`:
the entry exists and holds exactly the arcs spanning period 0. -/
theorem generate_sets_entry_witness :
    ∃ l, List.lookup 0 (generate_sets 2 [(0, 2), (1, 3)]) = some l ∧
      ∀ arc : ℕ × ℕ, arc ∈ l ↔ arc ∈ [(0, 2), (1, 3)] ∧ arc.1 ≤ 0 ∧ 0 < arc.2 :=
  generate_sets_entry 2 0 [(0, 2), (1, 3)] (by norm_num)

/-- `data_loader.py` lines 128-163, `DataLoader.generate_epsilon_sets`:
the time-window filter.  Forward orders: city-1 arcs departing strictly
before the order's earliest start, and city-2 arcs arriving strictly after
its latest completion; reverse orders symmetrically.  The source appends
flat tuples `(i, j, city, flow, l)`; the embedding groups the arc as a
pair, keeping the generation order (all forward orders first, within each
order the origin-city block before the destination-city block). -/
def generate_epsilon_sets (pos_orders neg_orders : List (ℕ × OrderBatch))
    (arcs_manual_1 arcs_manual_2 : List (ℕ × ℕ)) :
    List ((ℕ × ℕ) × ℕ × Flow × ℕ) :=
  (pos_orders.flatMap fun lo =>
    ((arcs_manual_1.filter fun p => decide (p.1 < lo.2.earliest_start)).map
      fun p => (p, 1, Flow.pos, lo.1))
    ++ ((arcs_manual_2.filter fun p => decide (lo.2.latest_completion < p.2)).map
      fun p => (p, 2, Flow.pos, lo.1)))
  ++ (neg_orders.flatMap fun lo =>
    ((arcs_manual_2.filter fun p => decide (p.1 < lo.2.earliest_start)).map
      fun p => (p, 2, Flow.neg, lo.1))
    ++ ((arcs_manual_1.filter fun p => decide (lo.2.latest_completion < p.2)).map
      fun p => (p, 1, Flow.neg, lo.1)))

/-- `data_loader.py` lines 10-35 / `main.py` lines 79-85, dataclass
`DeliveryData`: the aggregate handed to the `Optimizer`.  The per-period
dicts (whose keys always cover `range(T)`) and the capacity-coefficient
dicts are embedded as functions. -/
structure DeliveryData where
  arcs_manual_1 : List (ℕ × ℕ)
  arcs_manual_2 : List (ℕ × ℕ)
  arcs_auto : List (ℕ × ℕ)
  sets_manual_1 : ℕ → List (ℕ × ℕ)
  sets_manual_2 : ℕ → List (ℕ × ℕ)
  sets_auto : ℕ → List (ℕ × ℕ)
  cap_coeff_1 : ℕ × ℕ → ℝ
  cap_coeff_2 : ℕ × ℕ → ℝ
  pos_orders : List (ℕ × OrderBatch)
  neg_orders : List (ℕ × OrderBatch)
  all_orders : List (ℕ × OrderBatch)
  epsilon_sets : List ((ℕ × ℕ) × ℕ × Flow × ℕ)

/-- `optimizer.py` line 19: `self.flow = ["+", "-"]`. -/
def flows : List Flow := [Flow.pos, Flow.neg]

/-- `optimizer.py` lines 20-31: the index list for the `x_manual`
variables, `(i, j, city, flow)` for both cities' manual arcs. -/
def arcs_indices (d : DeliveryData) : List ((ℕ × ℕ) × ℕ × Flow) :=
  (d.arcs_manual_1.flatMap fun p => flows.map fun f => (p, 1, f))
  ++ (d.arcs_manual_2.flatMap fun p => flows.map fun f => (p, 2, f))

/-- `optimizer.py` lines 20-31: the index list for the manual
load-assignment variables, `(i, j, flow)` — note that the source drops the
city component here. -/
def orders_indices (d : DeliveryData) : List ((ℕ × ℕ) × Flow) :=
  (d.arcs_manual_1.flatMap fun p => flows.map fun f => (p, f))
  ++ (d.arcs_manual_2.flatMap fun p => flows.map fun f => (p, f))

/-- `optimizer.py` lines 39-41: the full index set of the `g_manual`
variables created by `setup_variables`:
`addVars(orders_indices, all_orders.keys())` — every `(arc, flow)` index
crossed with every order id, with no reference to `epsilon_sets`. -/
def g_manual_indices (d : DeliveryData) : List ((ℕ × ℕ) × Flow × ℕ) :=
  (orders_indices d).flatMap fun q => d.all_orders.map fun lo => (q.1, q.2, lo.1)

/-- A value assignment for all decision variables of the model built by
`Optimizer.setup_variables` (`optimizer.py` lines 18-48): trip counts
`x_manual`, `y_auto`, load assignments `g_manual`, `g_auto`, and unserved
quantities `z_unserved`, all integer. -/
structure Solution where
  x_manual : (ℕ × ℕ) → ℕ → Flow → ℤ
  y_auto : (ℕ × ℕ) → Flow → ℤ
  g_manual : (ℕ × ℕ) → Flow → ℕ → ℤ
  g_auto : (ℕ × ℕ) → Flow → ℕ → ℤ
  z_unserved : ℕ → ℤ

/-- Sum of an integer quantity over a list of indices (`gp.quicksum`). -/
def sumZ {α : Type} (l : List α) (f : α → ℤ) : ℤ :=
  (l.map f).sum

/-- `optimizer.py` lines 132-135 and 148-156: the orders of one flow
direction (`pos_orders` if the flow is `"+"`, else `neg_orders`). -/
def dir_orders (d : DeliveryData) (f : Flow) : List (ℕ × OrderBatch) :=
  if f = Flow.pos then d.pos_orders else d.neg_orders

/-- `optimizer.py` lines 162-171 and 214: origin-city manual arcs of a
flow direction (city 1 for `"+"`, city 2 for `"-"`). -/
def origin_arcs (d : DeliveryData) (f : Flow) : List (ℕ × ℕ) :=
  if f = Flow.pos then d.arcs_manual_1 else d.arcs_manual_2

/-- `optimizer.py` lines 162-171: destination-city manual arcs of a flow
direction (city 2 for `"+"`, city 1 for `"-"`). -/
def dest_arcs (d : DeliveryData) (f : Flow) : List (ℕ × ℕ) :=
  if f = Flow.pos then d.arcs_manual_2 else d.arcs_manual_1

/-- `optimizer.py` lines 73-76: the active-arc list of a city at `t`. -/
def city_sets (d : DeliveryData) (city : ℕ) : ℕ → List (ℕ × ℕ) :=
  if city = 1 then d.sets_manual_1 else d.sets_manual_2

/-- `optimizer.py` lines 128-131: the capacity-coefficient table of a
city. -/
def city_coeff (d : DeliveryData) (city : ℕ) : ℕ × ℕ → ℝ :=
  if city = 1 then d.cap_coeff_1 else d.cap_coeff_2

/-- The declarative content of the constraint statements of
`Optimizer.set_constraints` (`optimizer.py` lines 68-218), together with
the non-negativity bounds that the solver attaches to every integer
variable by default (`addVars` with the default lower bound 0).
Scope notes.  The source method itself crashes at the constraints-(4)/(5)
loop for every horizon `T ≥ 1` (it indexes `arcs_auto[t]`; this error
path is modelled faithfully in `Optimizer.set_constraints` below), so a
build completes only in the degenerate `T = 0` case, where the
period-indexed families here are vacuous and this predicate coincides
field-for-field with the built model.  Two repairs of constraint
families that are present in the source but not executable as written:
constraints (4)/(5) are embedded with the evidently intended iteration
over `arcs_auto` filtered by `i < t`, and constraint (6), whose
per-order comparisons the source wraps in one `quicksum`, is embedded as
the family of per-order inequalities the comprehension generates. -/
structure Feasible (cfg : DeliveryConfig) (d : DeliveryData) (s : Solution) :
    Prop where
  x_nonneg : ∀ q ∈ arcs_indices d, 0 ≤ s.x_manual q.1 q.2.1 q.2.2
  y_nonneg : ∀ p ∈ d.arcs_auto, ∀ f ∈ flows, 0 ≤ s.y_auto p f
  g_manual_nonneg : ∀ q ∈ g_manual_indices d, 0 ≤ s.g_manual q.1 q.2.1 q.2.2
  g_auto_nonneg : ∀ p ∈ d.arcs_auto, ∀ f ∈ flows, ∀ lo ∈ d.all_orders,
    0 ≤ s.g_auto p f lo.1
  z_nonneg : ∀ lo ∈ d.all_orders, 0 ≤ s.z_unserved lo.1
  fleet_manual : ∀ t, t < cfg.T → ∀ city ∈ [1, 2],
    sumZ (city_sets d city t) (fun p => sumZ flows fun f => s.x_manual p city f)
      ≤ cfg.N_manual city
  fleet_auto : ∀ t, t < cfg.T →
    sumZ (d.sets_auto t) (fun p => sumZ flows fun f => s.y_auto p f)
      ≤ cfg.N_auto 1 + cfg.N_auto 2
  auto_balance_pos : ∀ t, t < cfg.T →
    0 ≤ sumZ (d.arcs_auto.filter fun p => decide (p.1 < t))
          (fun p => s.y_auto p Flow.pos)
        - sumZ (d.arcs_auto.filter fun p => decide (p.1 < t))
          (fun p => s.y_auto p Flow.neg)
        + cfg.N_auto 1
  auto_balance_neg : ∀ t, t < cfg.T →
    0 ≤ sumZ (d.arcs_auto.filter fun p => decide (p.1 < t))
          (fun p => s.y_auto p Flow.neg)
        - sumZ (d.arcs_auto.filter fun p => decide (p.1 < t))
          (fun p => s.y_auto p Flow.pos)
        + cfg.N_auto 2
  manual_capacity : ∀ q ∈ arcs_indices d, ∀ lo ∈ dir_orders d q.2.2,
    (s.g_manual q.1 q.2.2 lo.1 : ℝ)
      ≤ (s.x_manual q.1 q.2.1 q.2.2 : ℝ) * city_coeff d q.2.1 q.1
  auto_capacity : ∀ p ∈ d.arcs_auto, ∀ f ∈ flows, ∀ lo ∈ dir_orders d f,
    (s.g_auto p f lo.1 : ℝ) ≤ (s.y_auto p f : ℝ) * cfg.capacity_auto
  auto_capacity_total : ∀ p ∈ d.arcs_auto, ∀ f ∈ flows,
    (sumZ (dir_orders d f) (fun lo => s.g_auto p f lo.1) : ℝ)
      ≤ (s.y_auto p f : ℝ) * cfg.capacity_auto
  transfer_origin : ∀ t, t < cfg.T → ∀ f ∈ flows,
    sumZ (d.arcs_auto.filter fun p => decide (p.1 ≤ t))
        (fun p => sumZ (dir_orders d f) fun lo => s.g_auto p f lo.1)
      ≤ sumZ ((origin_arcs d f).filter fun p => decide (p.2 ≤ t))
        (fun p => sumZ (dir_orders d f) fun lo => s.g_manual p f lo.1)
  transfer_dest : ∀ t, t < cfg.T → ∀ f ∈ flows,
    sumZ (d.arcs_auto.filter fun p => decide (p.2 ≤ t))
        (fun p => sumZ (dir_orders d f) fun lo => s.g_auto p f lo.1)
      ≥ sumZ ((dest_arcs d f).filter fun p => decide (p.1 ≤ t))
        (fun p => sumZ (dir_orders d f) fun lo => s.g_manual p f lo.1)
  demand_balance : ∀ lo ∈ d.all_orders,
    sumZ (origin_arcs d lo.2.flow) (fun p => s.g_manual p lo.2.flow lo.1)
      = lo.2.quantity - s.z_unserved lo.1

/-- C2: in every feasible solution of the built model, for every order,
the load assigned to it over the origin-city manual arcs of its flow plus
its unserved quantity equals the order's demand exactly: the model
contains this as the per-order equality constraint (11)
(`optimizer.py` lines 211-218). -/
theorem feasible_demand_balance (cfg : DeliveryConfig) (d : DeliveryData)
    (s : Solution) (h : Feasible cfg d s) :
    ∀ lo ∈ d.all_orders,
      sumZ (origin_arcs d lo.2.flow) (fun p => s.g_manual p lo.2.flow lo.1)
        + s.z_unserved lo.1 = lo.2.quantity := by
  intro lo hlo
  have hb := h.demand_balance lo hlo
  omega

/-- Trivial planning instance for the demand-balance witness: a single
forward order of demand 5 with no arcs and horizon 0, wholly unserved. -/
def ordW : OrderBatch :=
  { batch_id := 1, flow := Flow.pos, quantity := 5, earliest_start := 0,
    latest_completion := 0, penalty_lost := 0 }

/-- Configuration of the witness instance (the repository defaults of
`config.py` with the horizon shrunk to 0). -/
noncomputable def cfgW : DeliveryConfig :=
  { T := 0, t_0 := 60, travel_time_periods := 4,
    N_manual := fun _ => 30, N_auto := fun _ => 15,
    capacity_manual := 1000, capacity_auto := 2000,
    cost_manual := 20, cost_auto := 15, penalty_lost := 500,
    service_a_1 := 5 / 100, service_b_1 := 1 / 10,
    service_a_2 := 5 / 100, service_b_2 := 1 / 10 }

/-- Network data of the witness instance: no arcs at all, one order. -/
def dataW : DeliveryData :=
  { arcs_manual_1 := [], arcs_manual_2 := [], arcs_auto := [],
    sets_manual_1 := fun _ => [], sets_manual_2 := fun _ => [],
    sets_auto := fun _ => [],
    cap_coeff_1 := fun _ => 0, cap_coeff_2 := fun _ => 0,
    pos_orders := [(1, ordW)], neg_orders := [], all_orders := [(1, ordW)],
    epsilon_sets := generate_epsilon_sets [(1, ordW)] [] [] [] }

/-- The all-zero solution of the witness instance, with the whole demand
of order 1 unserved. -/
def solW : Solution :=
  { x_manual := fun _ _ _ => 0, y_auto := fun _ _ => 0,
    g_manual := fun _ _ _ => 0, g_auto := fun _ _ _ => 0,
    z_unserved := fun _ => 5 }

/-- The witness instance satisfies every constraint of the built model. -/
theorem feasibleW : Feasible cfgW dataW solW := by
  constructor <;>
    simp [cfgW, dataW, solW, ordW, arcs_indices, orders_indices,
      g_manual_indices, flows, sumZ, origin_arcs, dest_arcs, dir_orders,
      city_sets, city_coeff]

/-- C2 witness: applying the demand-balance theorem to the concrete
feasible instance: assigned load 0 plus unserved 5 equals the demand 5. -/
theorem feasible_demand_balance_witness :
    sumZ (origin_arcs dataW ordW.flow) (fun p => solW.g_manual p ordW.flow 1)
      + solW.z_unserved 1 = ordW.quantity :=
  feasible_demand_balance cfgW dataW solW feasibleW (1, ordW) (by simp [dataW])

/-- Failing input for the epsilon-pruning claim: one forward order of
demand 1 whose time window starts at period 1, so the city-1 arc `(0, 1)`
departs too early for it. -/
def ordBug : OrderBatch :=
  { batch_id := 1, flow := Flow.pos, quantity := 1, earliest_start := 1,
    latest_completion := 1, penalty_lost := 500 }

/-- Configuration of the failing input: the repository defaults of
`config.py` with horizon 1. -/
noncomputable def cfgBug : DeliveryConfig :=
  { T := 1, t_0 := 60, travel_time_periods := 4,
    N_manual := fun _ => 30, N_auto := fun _ => 15,
    capacity_manual := 1000, capacity_auto := 2000,
    cost_manual := 20, cost_auto := 15, penalty_lost := 500,
    service_a_1 := 5 / 100, service_b_1 := 1 / 10,
    service_a_2 := 5 / 100, service_b_2 := 1 / 10 }

/-- Network data of the failing input, built as `main.py` lines 70-85
would: the single city-1 arc `(0, 1)`, its active-arc index, its capacity
coefficient from `pre_inverse_count`, and the epsilon set from
`generate_epsilon_sets` — which contains the pair
`((0, 1), city 1, "+", order 1)`. -/
noncomputable def dataBug : DeliveryData :=
  { arcs_manual_1 := [(0, 1)], arcs_manual_2 := [], arcs_auto := [],
    sets_manual_1 := fun t => if t = 0 then [(0, 1)] else [],
    sets_manual_2 := fun _ => [], sets_auto := fun _ => [],
    cap_coeff_1 := fun p =>
      inverse_function (5 / 100) (1 / 10) (((p.2 - p.1 : ℕ) : ℝ) * 60),
    cap_coeff_2 := fun _ => 0,
    pos_orders := [(1, ordBug)], neg_orders := [],
    all_orders := [(1, ordBug)],
    epsilon_sets := generate_epsilon_sets [(1, ordBug)] [] [(0, 1)] [] }

/-- A solution of the failing input that routes the whole demand of order
1 over the arc `(0, 1)` — the very pair the epsilon set marks as
violating the order's time window. -/
def solBug : Solution :=
  { x_manual := fun p c f =>
      if p = (0, 1) ∧ c = 1 ∧ f = Flow.pos then 1 else 0,
    y_auto := fun _ _ => 0,
    g_manual := fun p f l =>
      if p = (0, 1) ∧ f = Flow.pos ∧ l = 1 then 1 else 0,
    g_auto := fun _ _ _ => 0,
    z_unserved := fun _ => 0 }

/-- The epsilon-violating solution satisfies every constraint the source
actually builds: nothing in the model forbids it. -/
theorem feasibleBug : Feasible cfgBug dataBug solBug := by
  constructor
  case x_nonneg => decide
  case y_nonneg => decide
  case g_manual_nonneg => decide
  case g_auto_nonneg => decide
  case z_nonneg => decide
  case fleet_manual =>
    intro t ht city hcity
    simp only [cfgBug] at ht
    have h0 : t = 0 := by omega
    subst h0
    fin_cases hcity <;> decide
  case fleet_auto =>
    intro t ht
    simp only [cfgBug] at ht
    have h0 : t = 0 := by omega
    subst h0
    decide
  case auto_balance_pos =>
    intro t ht
    simp [dataBug, sumZ, cfgBug]
  case auto_balance_neg =>
    intro t ht
    simp [dataBug, sumZ, cfgBug]
  case manual_capacity =>
    intro q hq lo hlo
    fin_cases hq
    · simp only [dir_orders, dataBug, if_true] at hlo
      simp only [List.mem_cons, List.not_mem_nil, or_false] at hlo
      subst hlo
      show (↑(solBug.g_manual (0, 1) Flow.pos 1) : ℝ)
        ≤ ↑(solBug.x_manual (0, 1) 1 Flow.pos) * city_coeff dataBug 1 (0, 1)
      have h1201 : (11 : ℝ) ≤ Real.sqrt 1201 := by
        rw [Real.le_sqrt' (by norm_num)]
        norm_num
      have h100 : Real.sqrt (100 : ℝ) = 10 := by
        rw [show (100 : ℝ) = 10 ^ 2 by norm_num, Real.sqrt_sq (by norm_num)]
      simp only [solBug, city_coeff, dataBug, inverse_function]
      norm_num [h100]
      rw [le_abs]
      left
      nlinarith [h1201]
    · simp [dir_orders, dataBug] at hlo
  case auto_capacity => decide
  case auto_capacity_total => decide
  case transfer_origin =>
    intro t ht f hf
    simp only [cfgBug] at ht
    have h0 : t = 0 := by omega
    subst h0
    fin_cases hf <;> decide
  case transfer_dest =>
    intro t ht f hf
    simp only [cfgBug] at ht
    have h0 : t = 0 := by omega
    subst h0
    fin_cases hf <;> decide
  case demand_balance => decide

/-- C1: the source computes the epsilon set but `Optimizer` never reads
it.  On the failing input, the pair `((0, 1), city 1, "+", order 1)` is in
the epsilon set, yet `setup_variables` still creates the load variable
`g_manual[(0, 1), "+", 1]`, and the solution assigning it the positive
load 1 satisfies every constraint of the built model — the claimed
pruning (no variable, or forced to zero) does not exist. -/
theorem epsilon_pair_not_pruned :
    ((0, 1), 1, Flow.pos, 1) ∈ dataBug.epsilon_sets ∧
    ((0, 1), Flow.pos, 1) ∈ g_manual_indices dataBug ∧
    Feasible cfgBug dataBug solBug ∧
    solBug.g_manual (0, 1) Flow.pos 1 = 1 :=
  ⟨by decide, by decide, feasibleBug, by decide⟩

/-- The attribute state of an `Optimizer` instance (`optimizer.py` lines
11-68).  `has_variables` records whether the attribute block written by
`setup_variables` (`flow`, `arcs_indices`, `orders_indices`, `x_manual`,
`y_auto`, `g_manual`, `g_auto`, `z_unserved`) exists; `has_objective` and
`has_constraints` record the effects of `set_objective` and
`set_constraints`.  `__init__` sets none of them. -/
structure OptState where
  has_variables : Bool
  has_objective : Bool
  has_constraints : Bool
deriving DecidableEq, Fintype

/-- `optimizer.py` lines 12-15, `Optimizer.__init__`: only `cfg`, `data`
and the empty solver model exist; none of the step attributes do. -/
def initOptState : OptState :=
  { has_variables := false, has_objective := false, has_constraints := false }

/-- `optimizer.py` lines 18-48, `Optimizer.setup_variables`: reads only
`self.cfg` and `self.data` (always present), so it succeeds from any
state and installs the variable attributes. -/
def Optimizer.setup_variables (s : OptState) : Except PyExc OptState :=
  .ok { s with has_variables := true }

/-- `optimizer.py` lines 50-66, `Optimizer.set_objective`: reads
`self.z_unserved`, `self.x_manual`, `self.arcs_indices`, `self.y_auto` —
attributes that exist exactly when `setup_variables` has run; a missing
attribute raises Python's `AttributeError`. -/
def Optimizer.set_objective (s : OptState) : Except PyExc OptState :=
  if s.has_variables then .ok { s with has_objective := true }
  else .error .attributeError

/-- `optimizer.py` lines 68-218, `Optimizer.set_constraints`, embedded to
its first failure point, in the statement order of the source.  It reads
nothing written by `set_objective`.  The constraint blocks execute
sequentially:
block (2) (lines 70-89) touches the variable attributes (`self.flow`,
`self.x_manual`) as soon as some period `t < T` has a nonempty manual
active-arc list, raising `AttributeError` if `setup_variables` has not
run; block (3) (lines 91-103) likewise via `self.y_auto` when some
`sets_auto[t]` is nonempty; blocks (4)/(5) (lines 105-125) evaluate
`self.data.arcs_auto[t]` — indexing the arc *list* by the period — so at
`t = 0` they raise `IndexError` when `arcs_auto` is empty and otherwise
`TypeError` (unpacking an `int` from the tuple `arcs_auto[0]`), before
any variable attribute is touched: for every `T ≥ 1` the method raises
here even after `setup_variables`.  Only with `T = 0` is block (6)
(lines 127-142) reached; its header reads `self.arcs_indices`
(`AttributeError` without variables), and its body wraps per-order
comparison objects in `gp.quicksum` inside `addConstr`, which fails at
gurobipy level for every manual arc index; with no manual arc indices the
remaining blocks (lines 144-218) complete. -/
def Optimizer.set_constraints (cfg : DeliveryConfig) (d : DeliveryData)
    (s : OptState) : Except PyExc OptState :=
  if !s.has_variables && ((List.range cfg.T).any fun t =>
      !(d.sets_manual_1 t).isEmpty || !(d.sets_manual_2 t).isEmpty) then
    .error .attributeError
  else if !s.has_variables && ((List.range cfg.T).any fun t =>
      !(d.sets_auto t).isEmpty) then
    .error .attributeError
  else if 0 < cfg.T then
    if d.arcs_auto.isEmpty then .error .indexError else .error .typeError
  else if !s.has_variables then
    .error .attributeError
  else if !(arcs_indices d).isEmpty then
    .error .gurobiError
  else
    .ok { s with has_constraints := true }

/-- `main.py` line 96: `opt.model.optimize()` — the solver model exists
from `__init__` on, so solving succeeds (possibly on an empty model) from
any state. -/
def Optimizer.optimize (s : OptState) : Except PyExc OptState :=
  .ok s

/-- C9 (amended): the builder has no state machine and no `InvalidState`
error.  `setup_variables` and the solve call succeed from every state;
`set_objective` raises Python's `AttributeError` exactly when
`setup_variables` has not run; `set_constraints` always raises when the
variable attributes are missing, and — even in order, after
`setup_variables` — raises `IndexError` (empty autonomous arc list) or
`TypeError` (unpacking an int from `arcs_auto[0]`) at the
constraints-(4)/(5) loop for every horizon `T ≥ 1`; it completes only in
the degenerate case `T = 0` with no manual arc indices. -/
theorem optimizer_step_errors :
    ∀ (s : OptState) (cfg : DeliveryConfig) (d : DeliveryData),
      exceptOk (Optimizer.setup_variables s) = true ∧
      exceptOk (Optimizer.optimize s) = true ∧
      (Optimizer.set_objective s = Except.error PyExc.attributeError
        ↔ s.has_variables = false) ∧
      (s.has_variables = false →
        exceptOk (Optimizer.set_constraints cfg d s) = false) ∧
      (s.has_variables = true → 0 < cfg.T →
        Optimizer.set_constraints cfg d s
          = (if d.arcs_auto.isEmpty then Except.error PyExc.indexError
             else Except.error PyExc.typeError)) ∧
      (s.has_variables = true → cfg.T = 0 → arcs_indices d = [] →
        Optimizer.set_constraints cfg d s
          = Except.ok { s with has_constraints := true }) := by
  intro s cfg d
  refine ⟨rfl, rfl, ?_, ?_, ?_, ?_⟩
  · cases hs : s.has_variables <;> simp [Optimizer.set_objective, hs]
  · intro hv
    simp only [Optimizer.set_constraints, hv]
    split_ifs <;> simp_all [exceptOk]
  · intro hv hT
    simp [Optimizer.set_constraints, hv, hT]
  · intro hv hT0 hidx
    simp [Optimizer.set_constraints, hv, hT0, hidx]

/-- C9 witness: on the completed degenerate build (`cfgW`, `dataW`,
horizon 0, no arcs) with the variables declared, `set_constraints`
returns normally. -/
theorem optimizer_step_errors_witness :
    Optimizer.set_constraints cfgW dataW
        { has_variables := true, has_objective := true,
          has_constraints := false }
      = Except.ok
        { has_variables := true, has_objective := true,
          has_constraints := true } :=
  (optimizer_step_errors
    { has_variables := true, has_objective := true, has_constraints := false }
    cfgW dataW).2.2.2.2.2 rfl rfl rfl

/-- C9, counterexample to the claim as stated: no out-of-order invocation
fails with `InvalidState`.  Solving from the initial state succeeds
outright; `set_objective` from the initial state fails with Python's
`AttributeError` instead; on the completed degenerate build (`cfgW`,
`dataW`, horizon 0) `set_constraints` succeeds although its spec-level
prerequisite `set_objective` has not completed; and on the failing-input
build (`cfgBug`, `dataBug`, horizon 1) even the fully in-order
`set_constraints` raises `IndexError` at the constraints-(4)/(5) loop,
so the strictly-sequential discipline does not exist in either
direction. -/
theorem optimizer_not_sequential_cex :
    Optimizer.optimize initOptState = Except.ok initOptState ∧
    Optimizer.set_objective initOptState
      = Except.error PyExc.attributeError ∧
    Optimizer.set_constraints cfgW dataW
        { has_variables := true, has_objective := false,
          has_constraints := false }
      = Except.ok
        { has_variables := true, has_objective := false,
          has_constraints := true } ∧
    Optimizer.set_constraints cfgBug dataBug
        { has_variables := true, has_objective := true,
          has_constraints := false }
      = Except.error PyExc.indexError :=
  ⟨rfl, rfl, rfl, rfl⟩

end Intercity
